import Mathlib

/-!
Verification of the compression-settings resolution, FFmpeg command
construction, progress tracking, size-string parsing and batch
orchestration of a video-compression utility.

The Python source is shallowly embedded: real-number quantities
(durations in seconds, sizes in MB, ratios) are modelled by `ℚ`,
Python `int(x)` truncation toward zero by `pyInt`, Python `//` floor
division by `Int.fdiv`, optional parameters by `Option`, raised
`ValueError`s by `Except.error`, and the Python truthiness test
`if x:` on an optional float by `truthyQ` (absent or zero is falsy).
-/

namespace VC

/-- Python `int(x)` on a rational: truncation toward zero (floor for
nonnegative arguments, ceiling for negative ones). -/
def pyInt (q : ℚ) : ℤ := if 0 ≤ q then ⌊q⌋ else ⌈q⌉

/-- Python truthiness of an `Optional[float]`: `None` and `0.0` are falsy. -/
def truthyQ : Option ℚ → Bool
  | none => false
  | some x => decide (x ≠ 0)

/-- The fields of the probe-result dictionary that the bitrate
calculation reads: `duration` (seconds) and `bitrate` (bits/sec). -/
structure VideoInfo where
  duration : ℚ
  bitrate : ℤ
deriving DecidableEq

/-- One entry of `CompressionSettings.QUALITY_PRESETS`. -/
structure QualityPreset where
  crf : ℤ
  preset : String
  bitrate_factor : ℚ
  description : String
deriving DecidableEq

/-- One entry of `CompressionSettings.SUPPORTED_CODECS`. -/
structure CodecInfo where
  name : String
  description : String
  file_extension : String
deriving DecidableEq

/-- `CompressionSettings.QUALITY_PRESETS` (0.9, 0.8, 0.6, 0.4 as exact rationals). -/
def QUALITY_PRESETS : List (String × QualityPreset) :=
  [("ultra", ⟨15, "slow", 9/10, "Highest quality, largest file size"⟩),
   ("high", ⟨18, "medium", 4/5, "High quality, good for archival"⟩),
   ("medium", ⟨23, "medium", 3/5, "Balanced quality and size"⟩),
   ("low", ⟨28, "fast", 2/5, "Lower quality, smaller file size"⟩)]

/-- `CompressionSettings.SUPPORTED_CODECS`. -/
def SUPPORTED_CODECS : List (String × CodecInfo) :=
  [("libx264", ⟨"H.264/AVC", "Widely compatible, good quality", "mp4"⟩),
   ("libx265", ⟨"H.265/HEVC", "Better compression, newer standard", "mp4"⟩)]

/-- `CompressionSettings.MIN_BITRATE_KBPS`. -/
def MIN_BITRATE_KBPS : ℤ := 100

/-- `CompressionSettings.validate_quality`: membership in the preset table. -/
def validate_quality (quality : String) : Bool :=
  (QUALITY_PRESETS.lookup quality).isSome

/-- `CompressionSettings.validate_codec`: membership in the codec table. -/
def validate_codec (codec : String) : Bool :=
  (SUPPORTED_CODECS.lookup codec).isSome

/-- `CompressionSettings.calculate_target_bitrate`.  The Python code tests
`if target_size_mb:` / `elif compression_ratio:`, so a supplied but zero
value falls through exactly as `None` does. -/
def calculate_target_bitrate (video_info : VideoInfo)
    (target_size_mb : Option ℚ) ( compression_ratio : Option ℚ) : ℤ :=
  let video_bitrate : ℤ :=
    if truthyQ target_size_mb then
      let target_size_bits := target_size_mb.getD 0 * 8 * 1024 * 1024
      pyInt (target_size_bits * (9/10) / video_info.duration)
    else if truthyQ compression_ratio then
      pyInt ((video_info.bitrate : ℚ) * compression_ratio.getD 0)
    else
      video_info.bitrate
  max video_bitrate (MIN_BITRATE_KBPS * 1000)

/-- The settings dictionary built by
`CompressionSettings.get_compression_settings`; a field is `none` exactly
when the corresponding key is absent from the Python dict. -/
structure VSettings where
  codec : String
  crf : Option ℤ
  preset : String
  quality_name : String
  codec_name : String
  bitrate : Option String
  target_bitrate_bps : Option ℤ
deriving DecidableEq

/-- `CompressionSettings.get_compression_settings`.  Raised `ValueError`s
become `Except.error`.  Note the Python code puts `crf` in the dict
unconditionally and adds `bitrate` next to it in the size/ratio branch. -/
def get_compression_settings (quality codec : String) (video_info : VideoInfo)
    (target_size_mb : Option ℚ) ( compression_ratio : Option ℚ) :
    Except String VSettings :=
  match QUALITY_PRESETS.lookup quality with
  | none => Except.error ("Invalid quality preset: " ++ quality)
  | some preset =>
    match SUPPORTED_CODECS.lookup codec with
    | none => Except.error ("Invalid codec: " ++ codec)
    | some codec_info =>
      let settings : VSettings :=
        { codec := codec, crf := some preset.crf, preset := preset.preset,
          quality_name := quality, codec_name := codec_info.name,
          bitrate := none, target_bitrate_bps := none }
      if truthyQ target_size_mb || truthyQ compression_ratio then
        let ratio : Option ℚ :=
          if truthyQ compression_ratio then compression_ratio
          else some preset.bitrate_factor
        let target_bitrate := calculate_target_bitrate video_info target_size_mb ratio
        Except.ok { settings with
          bitrate := some (toString (Int.fdiv target_bitrate 1000) ++ "k"),
          target_bitrate_bps := some target_bitrate }
      else
        Except.ok settings

/-- `CompressionSettings.get_codec_specific_params`, flattened to the
`extra_params` list (absent key behaves as the empty list downstream). -/
def get_codec_specific_params (codec : String) : List String :=
  if codec = "libx265" then ["-x265-params", "log-level=error"]
  else if codec = "libx264" then ["-movflags", "+faststart"]
  else []

/-- `VideoProcessor.build_ffmpeg_command`.  Reading a key the dict lacks
raises `KeyError` in Python; that is the `none` result here (it can only
happen when both `bitrate` and `crf` are absent). -/
def build_ffmpeg_command (ffmpeg_path input_path output_path : String)
    (settings : VSettings) (preserve_metadata : Bool) : Option (List String) :=
  let base := [ffmpeg_path, "-i", input_path,
               "-c:v", settings.codec,
               "-preset", settings.preset,
               "-y"]
  let mode : Option (List String) :=
    match settings.bitrate with
    | some b => some ["-b:v", b, "-maxrate", b]
    | none =>
      match settings.crf with
      | some n => some ["-crf", toString n]
      | none => none
  match mode with
  | none => none
  | some mode_args =>
    let cmd := base ++ mode_args ++ get_codec_specific_params settings.codec
      ++ ["-c:a", "aac", "-b:a", "128k"]
    let cmd := if preserve_metadata then cmd ++ ["-map_metadata", "0"] else cmd
    some (cmd ++ [output_path])

/-! ### Progress tracking (`progress_tracker.py`) -/

/-- ASCII characters matched by the regex class `\s`. -/
def isPySpace (c : Char) : Bool :=
  c = ' ' || c = '\t' || c = '\n' || c = '\r' || c = Char.ofNat 11 || c = Char.ofNat 12

/-- Value of a decimal digit string, as `int()` reads the regex group. -/
def digitsToNat (ds : List Char) : ℕ :=
  ds.foldl (fun a c => 10 * a + (c.toNat - 48)) 0

/-- Attempt to match the regex `frame=\s*(\d+)` at the head of the list. -/
def tryFrameAt (l : List Char) : Option ℕ :=
  match l with
  | 'f' :: 'r' :: 'a' :: 'm' :: 'e' :: '=' :: rest =>
    let ds := (rest.dropWhile isPySpace).takeWhile Char.isDigit
    if ds.isEmpty then none else some (digitsToNat ds)
  | _ => none

/-- `re.search(r'frame=\s*(\d+)', line)`: the leftmost match, if any. -/
def findFrame : List Char → Option ℕ
  | [] => none
  | c :: cs =>
    match tryFrameAt (c :: cs) with
    | some n => some n
    | none => findFrame cs

/-- The observable state of a `ProgressTracker`: `active` models
`progress_bar is not None`. -/
structure ProgressTracker where
  total_frames : ℕ
  current_frame : ℕ
  active : Bool
deriving DecidableEq

/-- `ProgressTracker.update_from_ffmpeg_output`: the new state plus the
returned boolean. -/
def update_from_ffmpeg_output (t : ProgressTracker) (output_line : String) :
    ProgressTracker × Bool :=
  if !t.active then (t, false)
  else
    match findFrame output_line.data with
    | none => (t, false)
    | some n =>
      if t.current_frame < min n t.total_frames then
        ({ t with current_frame := min n t.total_frames }, true)
      else (t, false)

/-- One output line seen by the read loop. -/
def trackStep (t : ProgressTracker) (output_line : String) : ProgressTracker :=
  (update_from_ffmpeg_output t output_line).1

/-- The tracker states visited while feeding a whole sequence of lines. -/
def trackStates (t : ProgressTracker) (lines : List String) : List ProgressTracker :=
  List.scanl trackStep t lines

/-! ### Size-string parsing (`file_utils.py`) -/

/-- Leading decimal digits of a character list, and the rest. -/
def takeDigits (l : List Char) : List Char × List Char :=
  (l.takeWhile Char.isDigit, l.dropWhile Char.isDigit)

/-- The digits-and-optional-point part of a finite Python float literal. -/
def parseUnsigned (l : List Char) : Option (ℚ × List Char) :=
  let (ip, r1) := takeDigits l
  match r1 with
  | '.' :: r2 =>
    let (fp, r3) := takeDigits r2
    if ip.isEmpty && fp.isEmpty then none
    else some ((digitsToNat ip : ℚ) + (digitsToNat fp : ℚ) / (10 ^ fp.length), r3)
  | _ => if ip.isEmpty then none else some ((digitsToNat ip : ℚ), r1)

/-- The optional exponent part of a finite Python float literal; fails on
trailing junk. -/
def parseExp (q : ℚ) (l : List Char) : Option ℚ :=
  match l with
  | [] => some q
  | e :: r =>
    if e = 'e' || e = 'E' then
      let (sgn, r2) : ℤ × List Char :=
        match r with
        | '+' :: r2 => (1, r2)
        | '-' :: r2 => (-1, r2)
        | _ => (1, r)
      let (ds, r3) := takeDigits r2
      if ds.isEmpty || !r3.isEmpty then none
      else some (q * (10:ℚ) ^ (sgn * (digitsToNat ds : ℤ)))
    else none

/-- Python's `float(s)` on finite decimal literals
(`[+-]? (D+ [. D*] | . D+) ([eE] [+-]? D+)?`, surrounding whitespace
ignored); `none` models a raised `ValueError`. -/
def pythonFloat (s : String) : Option ℚ :=
  let l := s.data.dropWhile isPySpace
  let l := (l.reverse.dropWhile isPySpace).reverse
  let (sgn, l2) : ℚ × List Char :=
    match l with
    | '+' :: r => (1, r)
    | '-' :: r => (-1, r)
    | _ => (1, l)
  match parseUnsigned l2 with
  | none => none
  | some (q, rest) => (parseExp q rest).map (fun x => sgn * x)

/-- Python `str.upper()` (character-wise, ASCII as in the inputs here). -/
def strToUpper (s : String) : String := ⟨s.data.map Char.toUpper⟩

/-- Python `str.replace(' ', '')`: delete every space character. -/
def removeSpaces (s : String) : String := ⟨s.data.filter (fun c => c != ' ')⟩

/-- Python `str.endswith`. -/
def strEndsWith (s suf : String) : Bool := suf.data.isSuffixOf s.data

/-- Python slicing `s[:-n]` for `n ≤ len(s)`: drop the last `n` characters. -/
def strDropRight (s : String) (n : ℕ) : String := ⟨s.data.take (s.data.length - n)⟩

/-- The string `FileUtils.parse_size_string` hands to `float()` after
upper-casing, removing spaces and stripping the recognized unit suffix. -/
def size_str_number (size_str : String) : String :=
  let s := removeSpaces (strToUpper size_str)
  if strEndsWith s "GB" then strDropRight s 2
  else if strEndsWith s "MB" then strDropRight s 2
  else if strEndsWith s "KB" then strDropRight s 2
  else if strEndsWith s "B" then strDropRight s 1
  else s

/-- `FileUtils.parse_size_string`: size in MB, or the raised `ValueError`. -/
def parse_size_string (size_str : String) : Except String ℚ :=
  let s := removeSpaces (strToUpper size_str)
  let r : Option ℚ :=
    if strEndsWith s "GB" then (pythonFloat (strDropRight s 2)).map (fun x => x * 1024)
    else if strEndsWith s "MB" then pythonFloat (strDropRight s 2)
    else if strEndsWith s "KB" then (pythonFloat (strDropRight s 2)).map (fun x => x / 1024)
    else if strEndsWith s "B" then (pythonFloat (strDropRight s 1)).map (fun x => x / (1024 * 1024))
    else pythonFloat s
  match r with
  | some q => Except.ok q
  | none => Except.error ("Invalid size format: " ++ size_str)

/-! ### Batch orchestration (`video_processor.py`) -/

/-- The externally visible effects of `process_batch` that the claims
speak about: creating the output directory, beginning the iteration for
a file, and spawning the encoder child process for a file. -/
inductive BatchEvent where
  | mkdirOut : BatchEvent
  | start : String → BatchEvent
  | spawn : String → BatchEvent
deriving DecidableEq

/-- The environment `process_batch` runs against: which paths have a
supported extension, what probing a file yields (`get_video_info` may
raise), what path the output generator produces, and what running the
encoder returns (`compress_video` yields a boolean or raises). -/
structure BatchEnv where
  is_supported_format : String → Bool
  get_video_info : String → Except String VideoInfo
  generate_output_path : String → String
  compress_video : String → String → VSettings → Except String Bool

/-- Outcome of one iteration of the `process_batch` loop body. -/
inductive FileOutcome where
  | ok : String → String → FileOutcome
  | fail : String → FileOutcome
deriving DecidableEq

/-- The input path an outcome accounts for. -/
def FileOutcome.input : FileOutcome → String
  | .ok i _ => i
  | .fail i => i

/-- The file a `start` event names, if any. -/
def BatchEvent.startName : BatchEvent → Option String
  | .start f => some f
  | _ => none

/-- One iteration of the `for input_path in input_files` loop: the
`try`/`except` body that classifies the file and the effects it causes.
Every raised exception is caught and turns into a `fail` entry. -/
def process_file (env : BatchEnv) (quality codec : String)
    (target_size_mb : Option ℚ) ( compression_ratio : Option ℚ)
    (input_path : String) : FileOutcome × List BatchEvent :=
  if !(env.is_supported_format input_path) then
    (.fail input_path, [.start input_path])
  else
    match env.get_video_info input_path with
    | .error _ => (.fail input_path, [.start input_path])
    | .ok info =>
      match get_compression_settings quality codec info target_size_mb compression_ratio with
      | .error _ => (.fail input_path, [.start input_path])
      | .ok settings =>
        match env.compress_video input_path
            (env.generate_output_path input_path) settings with
        | .error _ => (.fail input_path, [.start input_path, .spawn input_path])
        | .ok true =>
          (.ok input_path (env.generate_output_path input_path),
            [.start input_path, .spawn input_path])
        | .ok false => (.fail input_path, [.start input_path, .spawn input_path])

/-- The `'success'`/`'failed'` dictionary of `process_batch`, together
with the effect trace. -/
structure BatchResult where
  success : List (String × String)
  failed : List String
  trace : List BatchEvent
deriving DecidableEq

/-- The sequential loop of `process_batch` (appending at the end of the
Python lists is rendered as consing onto the results of the remaining
files, which produces the same lists). -/
def process_batch_loop (env : BatchEnv) (quality codec : String)
    (target_size_mb : Option ℚ) ( compression_ratio : Option ℚ) :
    List String → BatchResult
  | [] => ⟨[], [], []⟩
  | f :: fs =>
    match (process_file env quality codec target_size_mb compression_ratio f).1 with
    | .ok i out =>
      ⟨(i, out) ::
          (process_batch_loop env quality codec target_size_mb compression_ratio fs).success,
        (process_batch_loop env quality codec target_size_mb compression_ratio fs).failed,
        (process_file env quality codec target_size_mb compression_ratio f).2 ++
          (process_batch_loop env quality codec target_size_mb compression_ratio fs).trace⟩
    | .fail i =>
      ⟨(process_batch_loop env quality codec target_size_mb compression_ratio fs).success,
        i :: (process_batch_loop env quality codec target_size_mb compression_ratio fs).failed,
        (process_file env quality codec target_size_mb compression_ratio f).2 ++
          (process_batch_loop env quality codec target_size_mb compression_ratio fs).trace⟩

/-- `VideoProcessor.process_batch`: ensures the output directory exists,
then processes each input file in order. -/
def process_batch (env : BatchEnv) (quality codec : String)
    (target_size_mb : Option ℚ) ( compression_ratio : Option ℚ)
    (input_files : List String) : BatchResult :=
  let r := process_batch_loop env quality codec target_size_mb compression_ratio input_files
  ⟨r.success, r.failed, .mkdirOut :: r.trace⟩

/-! ### Helper lemmas -/

lemma pyInt_mono : Monotone pyInt := by
  intro a b hab
  unfold pyInt
  by_cases ha : 0 ≤ a
  · rw [if_pos ha, if_pos (ha.trans hab)]
    exact Int.floor_le_floor hab
  · rw [if_neg ha]
    by_cases hb : 0 ≤ b
    · rw [if_pos hb]
      exact (Int.ceil_le.mpr (by exact_mod_cast le_of_not_le ha)).trans
        (Int.floor_nonneg.mpr hb)
    · rw [if_neg hb]
      exact Int.ceil_le_ceil hab

/-- In the size branch (`target_size_mb` truthy) the computed bitrate is
the truncated formula, floored at 100000 bps, whatever the ratio is. -/
lemma calculate_target_bitrate_of_size (video_info : VideoInfo) (s : ℚ)
    (hs : s ≠ 0) (ratio : Option ℚ) :
    calculate_target_bitrate video_info (some s) ratio =
      max (pyInt (s * 8 * 1024 * 1024 * (9/10) / video_info.duration)) 100000 := by
  rw [calculate_target_bitrate]
  norm_num [truthyQ, hs, MIN_BITRATE_KBPS]

/-! ### C1 -/

/-- C1 (amended): for every video_info with positive duration and bitrate
and every supplied nonzero target size, `calculate_target_bitrate`
returns the integer truncation of
`(target_size_mb * 8 * 1024 * 1024 * 0.9) / duration`, floored at the
minimum bitrate of 100000 bps.  (The claim as frozen also covers a
supplied target size of `0.0`, where Python truthiness sends the code
down the ratio/original-bitrate path instead; see the counterexample.) -/
theorem C1_target_size_bitrate_formula (video_info : VideoInfo) (s : ℚ)
    (ratio : Option ℚ) (hs : s ≠ 0) (hd : 0 < video_info.duration)
    (hb : 0 < video_info.bitrate) :
    calculate_target_bitrate video_info (some s) ratio =
      max (pyInt (s * 8 * 1024 * 1024 * (9/10) / video_info.duration)) 100000 :=
  calculate_target_bitrate_of_size video_info s hs ratio

/-- Witness for C1 at duration 100 s, bitrate 4 Mbps, target 10 MB. -/
theorem C1_witness :
    calculate_target_bitrate ⟨100, 4000000⟩ (some 10) none =
      max (pyInt ((10:ℚ) * 8 * 1024 * 1024 * (9/10) / 100)) 100000 :=
  C1_target_size_bitrate_formula ⟨100, 4000000⟩ 10 none (by norm_num)
    (by norm_num) (by norm_num)

/-- C1 counterexample: with a supplied target size of `0.0` MB the code
returns the original bitrate (4000000 bps here), not the claimed
truncated-formula value floored at 100000 bps. -/
theorem C1_counterexample :
    calculate_target_bitrate ⟨100, 4000000⟩ (some 0) none = 4000000 ∧
    max (pyInt ((0:ℚ) * 8 * 1024 * 1024 * (9/10) / 100)) 100000 = 100000 ∧
    (4000000 : ℤ) ≠ 100000 := by
  refine ⟨?_, ?_, by decide⟩
  · rw [calculate_target_bitrate]
    norm_num [truthyQ, MIN_BITRATE_KBPS]
  · norm_num [pyInt]

/-! ### C4 -/

/-- C4 (amended): with duration fixed and positive, the computed bitrate
is monotone in the supplied target size over nonzero target sizes, and
for all inputs whatsoever the result never falls below the 100000 bps
floor.  (Over the claim's full range, a supplied target size of `0.0`
falls through to the original-bitrate path and breaks monotonicity; see
the counterexample.) -/
theorem C4_bitrate_monotone_and_floored (video_info : VideoInfo)
    (s1 s2 : ℚ) (ratio : Option ℚ) (hd : 0 < video_info.duration)
    (h1 : s1 ≠ 0) (h2 : s2 ≠ 0) (h12 : s1 ≤ s2) :
    calculate_target_bitrate video_info (some s1) ratio ≤
      calculate_target_bitrate video_info (some s2) ratio ∧
    ∀ (info : VideoInfo) (ts cr : Option ℚ),
      100000 ≤ calculate_target_bitrate info ts cr := by
  constructor
  · rw [calculate_target_bitrate_of_size video_info s1 h1 ratio,
        calculate_target_bitrate_of_size video_info s2 h2 ratio]
    refine max_le_max (pyInt_mono ?_) le_rfl
    gcongr
  · intro info ts cr
    rw [calculate_target_bitrate]
    norm_num [MIN_BITRATE_KBPS]

/-- Witness for C4: target sizes 5 MB and 10 MB on a 100-second clip. -/
theorem C4_witness :
    calculate_target_bitrate ⟨100, 4000000⟩ (some 5) none ≤
      calculate_target_bitrate ⟨100, 4000000⟩ (some 10) none ∧
    100000 ≤ calculate_target_bitrate ⟨200, 300⟩ none (some (1/2)) := by
  have h := C4_bitrate_monotone_and_floored ⟨100, 4000000⟩ 5 10 none
    (by norm_num) (by norm_num) (by norm_num) (by norm_num)
  exact ⟨h.1, h.2 ⟨200, 300⟩ none (some (1/2))⟩

/-- C4 counterexample: a supplied target size of `0.0` yields the
original bitrate (4000000 bps) while the larger target size `1/1000` MB
yields the floor (100000 bps), so monotonicity fails on the claim's full
range of target sizes. -/
theorem C4_counterexample :
    calculate_target_bitrate ⟨100, 4000000⟩ (some 0) none = 4000000 ∧
    calculate_target_bitrate ⟨100, 4000000⟩ (some (1/1000)) none = 100000 ∧
    ¬((4000000 : ℤ) ≤ 100000) := by
  refine ⟨?_, ?_, by decide⟩
  · rw [calculate_target_bitrate]
    norm_num [truthyQ, MIN_BITRATE_KBPS]
  · rw [calculate_target_bitrate]
    norm_num [truthyQ, pyInt, MIN_BITRATE_KBPS]

/-- Closed form of `get_compression_settings` in the bitrate branch. -/
lemma get_compression_settings_of_truthy (quality codec : String)
    (p : QualityPreset) (ci : CodecInfo) (video_info : VideoInfo)
    (ts cr : Option ℚ)
    (hq : QUALITY_PRESETS.lookup quality = some p)
    (hc : SUPPORTED_CODECS.lookup codec = some ci)
    (ht : (truthyQ ts || truthyQ cr) = true) :
    get_compression_settings quality codec video_info ts cr =
      Except.ok
        { codec := codec, crf := some p.crf, preset := p.preset,
          quality_name := quality, codec_name := ci.name,
          bitrate := some (toString (Int.fdiv
            (calculate_target_bitrate video_info ts
              (if truthyQ cr then cr else some p.bitrate_factor)) 1000) ++ "k"),
          target_bitrate_bps := some (calculate_target_bitrate video_info ts
            (if truthyQ cr then cr else some p.bitrate_factor)) } := by
  unfold get_compression_settings
  rw [hq, hc, ht]
  simp

/-- Closed form of `get_compression_settings` in the CRF branch. -/
lemma get_compression_settings_of_falsy (quality codec : String)
    (p : QualityPreset) (ci : CodecInfo) (video_info : VideoInfo)
    (ts cr : Option ℚ)
    (hq : QUALITY_PRESETS.lookup quality = some p)
    (hc : SUPPORTED_CODECS.lookup codec = some ci)
    (ht : (truthyQ ts || truthyQ cr) = false) :
    get_compression_settings quality codec video_info ts cr =
      Except.ok
        { codec := codec, crf := some p.crf, preset := p.preset,
          quality_name := quality, codec_name := ci.name,
          bitrate := none, target_bitrate_bps := none } := by
  unfold get_compression_settings
  rw [hq, hc, ht]
  simp

/-! ### C10 -/

/-- C10 (amended): for every nonzero supplied target size, the resolved
bitrate (both the bitrate string and `target_bitrate_bps`) depends only
on the target size and the video's duration: the quality preset's
`bitrate_factor`, any explicit ratio, and the video's original bitrate
have no effect, because the target-size branch of
`calculate_target_bitrate` takes precedence over the ratio branch.
(The claim as frozen covers every non-None target size; a supplied
target size of `0.0` is falsy in Python and the ratio then does matter;
see the counterexample.) -/
theorem C10_size_overrides_ratio (q1 q2 c : String) (info1 info2 : VideoInfo)
    (s : ℚ) (r1 r2 : Option ℚ)
    (hq1 : validate_quality q1 = true) (hq2 : validate_quality q2 = true)
    (hc : validate_codec c = true) (hs : s ≠ 0)
    (hd : info1.duration = info2.duration) :
    (get_compression_settings q1 c info1 (some s) r1).toOption.map
        (fun st => (st.bitrate, st.target_bitrate_bps)) =
    (get_compression_settings q2 c info2 (some s) r2).toOption.map
        (fun st => (st.bitrate, st.target_bitrate_bps)) := by
  rw [validate_quality] at hq1 hq2
  rw [validate_codec] at hc
  obtain ⟨p1, hp1⟩ := Option.isSome_iff_exists.mp hq1
  obtain ⟨p2, hp2⟩ := Option.isSome_iff_exists.mp hq2
  obtain ⟨ci, hci⟩ := Option.isSome_iff_exists.mp hc
  have ht1 : (truthyQ (some s) || truthyQ r1) = true := by simp [truthyQ, hs]
  have ht2 : (truthyQ (some s) || truthyQ r2) = true := by simp [truthyQ, hs]
  rw [get_compression_settings_of_truthy q1 c p1 ci info1 (some s) r1 hp1 hci ht1,
      get_compression_settings_of_truthy q2 c p2 ci info2 (some s) r2 hp2 hci ht2,
      calculate_target_bitrate_of_size info1 s hs,
      calculate_target_bitrate_of_size info2 s hs, hd]
  rfl

/-- Witness for C10: `medium` vs `low` preset and ratio `1/2` vs none on
videos sharing duration 100 s (original bitrates 4 Mbps vs 9 Mbps). -/
theorem C10_witness :
    (get_compression_settings "medium" "libx264" ⟨100, 4000000⟩ (some 10)
        (some (1/2))).toOption.map (fun st => (st.bitrate, st.target_bitrate_bps)) =
    (get_compression_settings "low" "libx264" ⟨100, 9000000⟩ (some 10)
        none).toOption.map (fun st => (st.bitrate, st.target_bitrate_bps)) :=
  C10_size_overrides_ratio "medium" "low" "libx264" ⟨100, 4000000⟩ ⟨100, 9000000⟩
    10 (some (1/2)) none (by decide) (by decide) (by decide) (by norm_num) rfl

/-- C10 counterexample: with the non-None target size `0.0` the ratio
does change the result: ratio `1/2` yields a 2000000 bps bitrate entry,
no ratio yields no bitrate entry at all. -/
theorem C10_counterexample :
    (get_compression_settings "medium" "libx264" ⟨100, 4000000⟩ (some 0)
        (some (1/2))).toOption.map (fun st => st.target_bitrate_bps) =
      some (some 2000000) ∧
    (get_compression_settings "medium" "libx264" ⟨100, 4000000⟩ (some 0)
        none).toOption.map (fun st => st.target_bitrate_bps) = some none ∧
    (some (some 2000000) : Option (Option ℤ)) ≠ some none := by
  have hq : QUALITY_PRESETS.lookup "medium" =
      some ⟨23, "medium", 3/5, "Balanced quality and size"⟩ := rfl
  have hc : SUPPORTED_CODECS.lookup "libx264" =
      some ⟨"H.264/AVC", "Widely compatible, good quality", "mp4"⟩ := rfl
  refine ⟨?_, ?_, by decide⟩
  · have h : calculate_target_bitrate ⟨100, 4000000⟩ (some 0) (some (1/2)) =
        2000000 := by
      rw [calculate_target_bitrate]
      norm_num [truthyQ, pyInt, MIN_BITRATE_KBPS]
    rw [get_compression_settings, hq, hc]
    norm_num [truthyQ, h]
    decide
  · rw [get_compression_settings, hq, hc]
    norm_num [truthyQ]
    decide

/-! ### C3 -/

/-- C3 (amended): for quality `medium`, target size 10 MB and duration
100 s (any original bitrate `b`), the resolved settings carry the
computed bitrate 754974 bps — the truncation of
`(10 * 8 * 1024^2 * 0.9) / 100 = 754974.72`, above the 100000 bps floor
so not floored — and the bitrate string is `"754k"`.  (The spec's
`"737k"`-class string corresponds to dividing by 1024; the code divides
by 1000; see the counterexample.) -/
theorem C3_ten_mb_scenario (b : ℤ) :
    (get_compression_settings "medium" "libx264" ⟨100, b⟩ (some 10)
        none).toOption.map (fun st => (st.target_bitrate_bps, st.bitrate)) =
      some (some 754974, some "754k") := by
  have h : calculate_target_bitrate ⟨100, b⟩ (some 10) (some (3/5)) = 754974 := by
    rw [calculate_target_bitrate_of_size ⟨100, b⟩ 10 (by norm_num)]
    norm_num [pyInt]
  have hq : QUALITY_PRESETS.lookup "medium" =
      some ⟨23, "medium", 3/5, "Balanced quality and size"⟩ := rfl
  have hc : SUPPORTED_CODECS.lookup "libx264" =
      some ⟨"H.264/AVC", "Widely compatible, good quality", "mp4"⟩ := rfl
  rw [get_compression_settings, hq, hc]
  norm_num [truthyQ, h]
  decide

/-- C3 counterexample: in that scenario the settings' bitrate string is
`"754k"`, not the claimed `"737k"`. -/
theorem C3_counterexample :
    (get_compression_settings "medium" "libx264" ⟨100, 4000000⟩ (some 10)
        none).toOption.map (fun st => st.bitrate) = some (some "754k") ∧
    ("754k" : String) ≠ "737k" := by
  constructor
  · have h : calculate_target_bitrate ⟨100, 4000000⟩ (some 10) (some (3/5)) =
        754974 := by
      rw [calculate_target_bitrate_of_size ⟨100, 4000000⟩ 10 (by norm_num)]
      norm_num [pyInt]
    have hq : QUALITY_PRESETS.lookup "medium" =
        some ⟨23, "medium", 3/5, "Balanced quality and size"⟩ := rfl
    have hc : SUPPORTED_CODECS.lookup "libx264" =
        some ⟨"H.264/AVC", "Widely compatible, good quality", "mp4"⟩ := rfl
    rw [get_compression_settings, hq, hc]
    norm_num [truthyQ, h]
    decide
  · decide

/-! ### C2 -/

/-- C2 (amended): every settings dictionary returned by
`get_compression_settings` contains the CRF key (unconditionally), and
contains the bitrate key if and only if a (truthy) target size or ratio
was supplied.  The claim's "exactly one of the two keys, never both"
fails: in bitrate mode both keys are present (the CRF key is simply
ignored by the command builder); see the counterexample. -/
theorem C2_settings_keys (quality codec : String) (video_info : VideoInfo)
    (target_size_mb : Option ℚ) ( compression_ratio : Option ℚ) (s : VSettings)
    (h : get_compression_settings quality codec video_info target_size_mb
        compression_ratio = Except.ok s) :
    s.crf.isSome = true ∧
    s.bitrate.isSome = (truthyQ target_size_mb || truthyQ compression_ratio) := by
  unfold get_compression_settings at h
  rcases hq : QUALITY_PRESETS.lookup quality with _ | p <;> rw [hq] at h
  · exact absurd h (by simp)
  rcases hc : SUPPORTED_CODECS.lookup codec with _ | ci <;> rw [hc] at h
  · exact absurd h (by simp)
  rcases ht : truthyQ target_size_mb || truthyQ compression_ratio <;>
    rw [ht] at h <;> simp only [if_true, if_false, Bool.false_eq_true] at h <;>
    rw [Except.ok.injEq] at h <;> subst h <;> simp

/-- Witness for C2 in CRF mode: no size, no ratio. -/
theorem C2_witness :
    (⟨"libx265", some 18, "medium", "high", "H.265/HEVC", none, none⟩
        : VSettings).crf.isSome = true ∧
    (⟨"libx265", some 18, "medium", "high", "H.265/HEVC", none, none⟩
        : VSettings).bitrate.isSome = (truthyQ none || truthyQ none) :=
  C2_settings_keys "high" "libx265" ⟨120, 4000000⟩ none none
    ⟨"libx265", some 18, "medium", "high", "H.265/HEVC", none, none⟩ rfl

/-- C2 counterexample: with a 10 MB target the returned settings carry
both the CRF key and the bitrate key, refuting "exactly one, never
both". -/
theorem C2_counterexample :
    (get_compression_settings "medium" "libx264" ⟨100, 4000000⟩ (some 10)
        none).toOption.map (fun s => (s.crf.isSome, s.bitrate.isSome)) =
      some (true, true) := by
  have h : calculate_target_bitrate ⟨100, 4000000⟩ (some 10) (some (3/5)) =
      754974 := by
    rw [calculate_target_bitrate_of_size ⟨100, 4000000⟩ 10 (by norm_num)]
    norm_num [pyInt]
  have hq : QUALITY_PRESETS.lookup "medium" =
      some ⟨23, "medium", 3/5, "Balanced quality and size"⟩ := rfl
  have hc : SUPPORTED_CODECS.lookup "libx264" =
      some ⟨"H.264/AVC", "Widely compatible, good quality", "mp4"⟩ := rfl
  rw [get_compression_settings, hq, hc]
  norm_num [truthyQ, h]
  decide

/-! ### C5 -/

lemma trackStep_total (t : ProgressTracker) (l : String) :
    (trackStep t l).total_frames = t.total_frames := by
  unfold trackStep update_from_ffmpeg_output
  split
  · rfl
  · split
    · rfl
    · split <;> rfl

lemma trackStep_current_mono (t : ProgressTracker) (l : String) :
    t.current_frame ≤ (trackStep t l).current_frame := by
  unfold trackStep update_from_ffmpeg_output
  split
  · exact le_rfl
  · split
    · exact le_rfl
    · split
      · rename_i n h
        dsimp only
        omega
      · exact le_rfl

lemma trackStep_le_total (t : ProgressTracker) (l : String)
    (h : t.current_frame ≤ t.total_frames) :
    (trackStep t l).current_frame ≤ t.total_frames := by
  unfold trackStep update_from_ffmpeg_output
  split
  · exact h
  · split
    · exact h
    · split
      · rename_i n hlt
        dsimp only
        omega
      · exact h

lemma trackStates_head (t : ProgressTracker) (lines : List String) :
    (trackStates t lines).head? = some t := by
  cases lines <;> rfl

lemma trackStates_bound :
    ∀ (lines : List String) (t : ProgressTracker),
      t.current_frame ≤ t.total_frames →
      ∀ x ∈ trackStates t lines, x.current_frame ≤ t.total_frames
  | [], t, h => by
    intro x hx
    rw [trackStates, List.scanl_nil, List.mem_singleton] at hx
    exact hx ▸ h
  | l :: ls, t, h => by
    intro x hx
    rw [trackStates, List.scanl_cons, List.singleton_append, List.mem_cons] at hx
    rcases hx with rfl | hx'
    · exact h
    · have h2 : (trackStep t l).current_frame ≤ (trackStep t l).total_frames := by
        rw [trackStep_total]
        exact trackStep_le_total t l h
      have h3 := trackStates_bound ls (trackStep t l) h2 x hx'
      rwa [trackStep_total] at h3

lemma trackStates_chain :
    ∀ (lines : List String) (t : ProgressTracker),
      List.Chain' (fun a b => a.current_frame ≤ b.current_frame)
        (trackStates t lines)
  | [], t => by
    rw [trackStates, List.scanl_nil]
    exact List.chain'_singleton t
  | l :: ls, t => by
    rw [trackStates, List.scanl_cons, List.singleton_append]
    refine List.chain'_cons'.mpr ⟨?_, trackStates_chain ls (trackStep t l)⟩
    intro y hy
    rw [show List.scanl trackStep (trackStep t l) ls =
        trackStates (trackStep t l) ls from rfl, trackStates_head] at hy
    rw [Option.mem_def, Option.some.injEq] at hy
    exact hy ▸ trackStep_current_mono t l

/-- C5: starting a `ProgressTracker` with total-frame estimate `T` and
feeding it any sequence of output lines, the `current_frame` counter
never decreases from one state to the next and never exceeds `T`; a line
with no `frame=<number>` match leaves the tracker unchanged (no error is
raised — the update function is total). -/
theorem C5_progress_monotone_clamped (T : ℕ) (lines : List String) :
    List.Chain' (fun a b => a.current_frame ≤ b.current_frame)
      (trackStates ⟨T, 0, true⟩ lines) ∧
    (∀ x ∈ trackStates ⟨T, 0, true⟩ lines, x.current_frame ≤ T) ∧
    (∀ (t : ProgressTracker) (line : String),
        findFrame line.data = none → trackStep t line = t) := by
  refine ⟨trackStates_chain lines ⟨T, 0, true⟩,
    trackStates_bound lines ⟨T, 0, true⟩ (Nat.zero_le T), ?_⟩
  intro t line hnone
  unfold trackStep update_from_ffmpeg_output
  rw [hnone]
  split <;> rfl

/-- Witness for C5 on a concrete jumbled line sequence: out-of-order,
over-range and malformed `frame=` values. -/
theorem C5_witness :
    (∀ x ∈ trackStates ⟨50, 0, true⟩
        ["frame=  10 fps=25", "garbage", "frame= 9000 q=3", "frame= 20",
         "frame=", "speed=1x"],
      x.current_frame ≤ 50) ∧
    trackStep ⟨50, 10, true⟩ "no match here" = ⟨50, 10, true⟩ :=
  ⟨(C5_progress_monotone_clamped 50 _).2.1,
    (C5_progress_monotone_clamped 50 []).2.2 ⟨50, 10, true⟩ "no match here"
      (by decide)⟩

/-! ### C6 -/

lemma process_file_input (env : BatchEnv) (quality codec : String)
    (ts cr : Option ℚ) (f : String) :
    ((process_file env quality codec ts cr f).1).input = f := by
  unfold process_file
  repeat' split
  all_goals rfl

lemma process_file_events (env : BatchEnv) (quality codec : String)
    (ts cr : Option ℚ) (f : String) :
    (process_file env quality codec ts cr f).2 = [.start f] ∨
    (process_file env quality codec ts cr f).2 = [.start f, .spawn f] := by
  unfold process_file
  repeat' split
  all_goals first | exact Or.inl rfl | exact Or.inr rfl

lemma process_file_fail_of_unsupported (env : BatchEnv) (quality codec : String)
    (ts cr : Option ℚ) (f : String) (h : env.is_supported_format f = false) :
    (process_file env quality codec ts cr f).1 = .fail f := by
  unfold process_file
  simp [h]

lemma process_batch_loop_perm (env : BatchEnv) (quality codec : String)
    (ts cr : Option ℚ) :
    ∀ fs : List String,
      (((process_batch_loop env quality codec ts cr fs).success.map Prod.fst) ++
        (process_batch_loop env quality codec ts cr fs).failed).Perm fs
  | [] => by simp [process_batch_loop]
  | f :: fs => by
    have ih := process_batch_loop_perm env quality codec ts cr fs
    have hname := process_file_input env quality codec ts cr f
    cases ho : (process_file env quality codec ts cr f).1 with
    | ok i out =>
      rw [ho, FileOutcome.input] at hname
      simp only [process_batch_loop, ho]
      rw [hname]
      simpa using ih.cons f
    | fail i =>
      rw [ho, FileOutcome.input] at hname
      simp only [process_batch_loop, ho]
      rw [hname]
      exact List.perm_middle.trans (ih.cons f)

lemma process_batch_loop_starts (env : BatchEnv) (quality codec : String)
    (ts cr : Option ℚ) :
    ∀ fs : List String,
      ((process_batch_loop env quality codec ts cr fs).trace.filterMap
        BatchEvent.startName) = fs
  | [] => by simp [process_batch_loop]
  | f :: fs => by
    have ih := process_batch_loop_starts env quality codec ts cr fs
    rcases process_file_events env quality codec ts cr f with he | he <;>
      cases ho : (process_file env quality codec ts cr f).1 <;>
        simp only [process_batch_loop, ho] <;>
          rw [List.filterMap_append, he] <;>
            simp [BatchEvent.startName, ih]

lemma process_batch_loop_unsupported (env : BatchEnv) (quality codec : String)
    (ts cr : Option ℚ) :
    ∀ (fs : List String) (f : String), f ∈ fs →
      env.is_supported_format f = false →
      f ∈ (process_batch_loop env quality codec ts cr fs).failed
  | g :: fs, f, hmem, hunsup => by
    rcases List.mem_cons.mp hmem with heq | hmem'
    · subst heq
      have hfail := process_file_fail_of_unsupported env quality codec ts cr f hunsup
      simp only [process_batch_loop, hfail]
      exact List.mem_cons_self _ _
    · have ih := process_batch_loop_unsupported env quality codec ts cr fs f hmem' hunsup
      cases ho : (process_file env quality codec ts cr g).1 <;>
        simp only [process_batch_loop, ho] <;> simp [ih]

/-- C6: `process_batch` accounts for every input file exactly once —
the input paths of the success pairs together with the failed paths are
a permutation of the input list, and the two lists' lengths sum to `N`;
it never raises for an individual file (the result is total for every
environment, including ones whose probe or encoder raise); the per-file
`start` events occur exactly in input order; the output directory is
created first, before any file is processed; and every
unsupported-format input is recorded among the failures. -/
theorem C6_batch_accounting (env : BatchEnv) (quality codec : String)
    (ts cr : Option ℚ) (input_files : List String) :
    (((process_batch env quality codec ts cr input_files).success.map Prod.fst) ++
        (process_batch env quality codec ts cr input_files).failed).Perm
      input_files ∧
    (process_batch env quality codec ts cr input_files).success.length +
        (process_batch env quality codec ts cr input_files).failed.length =
      input_files.length ∧
    (process_batch env quality codec ts cr input_files).trace.head? =
      some BatchEvent.mkdirOut ∧
    ((process_batch env quality codec ts cr input_files).trace.filterMap
        BatchEvent.startName) = input_files ∧
    ∀ f ∈ input_files, env.is_supported_format f = false →
      f ∈ (process_batch env quality codec ts cr input_files).failed := by
  have hperm : (((process_batch env quality codec ts cr input_files).success.map
      Prod.fst) ++ (process_batch env quality codec ts cr input_files).failed).Perm
      input_files := process_batch_loop_perm env quality codec ts cr input_files
  refine ⟨hperm, ?_, rfl, ?_, ?_⟩
  · have hlen := hperm.length_eq
    simpa using hlen
  · show ((BatchEvent.mkdirOut ::
        (process_batch_loop env quality codec ts cr input_files).trace).filterMap
      BatchEvent.startName) = input_files
    rw [List.filterMap_cons]
    simpa [BatchEvent.startName] using
      process_batch_loop_starts env quality codec ts cr input_files
  · intro f hmem hunsup
    exact process_batch_loop_unsupported env quality codec ts cr input_files f
      hmem hunsup

/-- A concrete environment for witnesses: only `a.mp4` is supported, the
probe always succeeds with a fixed `VideoInfo`, and the encoder succeeds. -/
def sampleEnv : BatchEnv where
  is_supported_format := fun f => f == "a.mp4"
  get_video_info := fun _ => Except.ok ⟨100, 4000000⟩
  generate_output_path := fun f => f ++ ".out"
  compress_video := fun _ _ _ => Except.ok true

/-- Witness for C6 on a two-file batch with one unsupported file. -/
theorem C6_witness :
    (((process_batch sampleEnv "medium" "libx264" none none
          ["a.mp4", "b.txt"]).success.map Prod.fst) ++
        (process_batch sampleEnv "medium" "libx264" none none
          ["a.mp4", "b.txt"]).failed).Perm ["a.mp4", "b.txt"] ∧
    "b.txt" ∈ (process_batch sampleEnv "medium" "libx264" none none
      ["a.mp4", "b.txt"]).failed := by
  have h := C6_batch_accounting sampleEnv "medium" "libx264" none none
    ["a.mp4", "b.txt"]
  exact ⟨h.1, h.2.2.2.2 "b.txt" (by decide) rfl⟩

/-! ### C9 -/

lemma process_file_no_spawn (env : BatchEnv) (quality codec : String)
    (ts cr : Option ℚ) (f g : String)
    (hall : ∀ info : VideoInfo, ∃ msg,
      get_compression_settings quality codec info ts cr = Except.error msg) :
    BatchEvent.spawn g ∉ (process_file env quality codec ts cr f).2 := by
  unfold process_file
  split
  · simp
  · split
    · simp
    · rename_i info heq
      obtain ⟨msg, hmsg⟩ := hall info
      split
      · simp
      · rename_i settings hset
        rw [hmsg] at hset
        exact absurd hset (by simp)

lemma process_batch_loop_no_spawn (env : BatchEnv) (quality codec : String)
    (ts cr : Option ℚ)
    (hall : ∀ info : VideoInfo, ∃ msg,
      get_compression_settings quality codec info ts cr = Except.error msg) :
    ∀ (fs : List String) (g : String),
      BatchEvent.spawn g ∉ (process_batch_loop env quality codec ts cr fs).trace
  | [], g => by simp [process_batch_loop]
  | f :: fs, g => by
    have ih := process_batch_loop_no_spawn env quality codec ts cr hall fs g
    have hf := process_file_no_spawn env quality codec ts cr f g hall
    cases ho : (process_file env quality codec ts cr f).1 <;>
      simp only [process_batch_loop, ho] <;>
        · rw [List.mem_append, not_or]
          exact ⟨hf, ih⟩

/-- C9: if the quality name is not in the preset table or the codec id is
not in the supported-codec table, `get_compression_settings` fails with a
`ValueError` for every video_info — no settings dictionary is produced —
and a batch run with those parameters never spawns an encoder subprocess
for any file. -/
theorem C9_invalid_parameters_rejected (quality codec : String)
    (h : validate_quality quality = false ∨ validate_codec codec = false) :
    (∀ (video_info : VideoInfo) (ts cr : Option ℚ), ∃ msg,
        get_compression_settings quality codec video_info ts cr =
          Except.error msg) ∧
    (∀ (env : BatchEnv) (ts cr : Option ℚ) (files : List String) (g : String),
        BatchEvent.spawn g ∉
          (process_batch env quality codec ts cr files).trace) := by
  have hall : ∀ (video_info : VideoInfo) (ts cr : Option ℚ), ∃ msg,
      get_compression_settings quality codec video_info ts cr =
        Except.error msg := by
    intro video_info ts cr
    rcases h with hq | hc
    · rw [validate_quality] at hq
      have hnone : QUALITY_PRESETS.lookup quality = none :=
        Option.not_isSome_iff_eq_none.mp (by simp [hq])
      rw [get_compression_settings, hnone]
      exact ⟨_, rfl⟩
    · rw [validate_codec] at hc
      have hnone : SUPPORTED_CODECS.lookup codec = none :=
        Option.not_isSome_iff_eq_none.mp (by simp [hc])
      rcases hql : QUALITY_PRESETS.lookup quality with _ | p
      · rw [get_compression_settings, hql]
        exact ⟨_, rfl⟩
      · rw [get_compression_settings, hql, hnone]
        exact ⟨_, rfl⟩
  refine ⟨hall, ?_⟩
  intro env ts cr files g
  show BatchEvent.spawn g ∉ BatchEvent.mkdirOut ::
    (process_batch_loop env quality codec ts cr files).trace
  rw [List.mem_cons, not_or]
  exact ⟨by simp, process_batch_loop_no_spawn env quality codec ts cr
    (fun info => hall info ts cr) files g⟩

/-- Witness for C9 with the unknown quality name `"bogus"`. -/
theorem C9_witness :
    (get_compression_settings "bogus" "libx264" ⟨100, 4000000⟩ none
        none).toOption = none ∧
    BatchEvent.spawn "a.mp4" ∉
      (process_batch sampleEnv "bogus" "libx264" none none ["a.mp4"]).trace := by
  obtain ⟨hall, hspawn⟩ :=
    C9_invalid_parameters_rejected "bogus" "libx264" (Or.inl (by decide))
  obtain ⟨msg, hmsg⟩ := hall ⟨100, 4000000⟩ none none
  exact ⟨by rw [hmsg]; rfl, hspawn sampleEnv none none ["a.mp4"] "a.mp4"⟩

/-! ### C8 -/

lemma parse_size_string_error_of_bad_number (s : String)
    (h : pythonFloat (size_str_number s) = none) :
    parse_size_string s = Except.error ("Invalid size format: " ++ s) := by
  rw [size_str_number] at h
  rw [parse_size_string]
  by_cases h1 : strEndsWith (removeSpaces (strToUpper s)) "GB"
  · simp only [h1, if_true] at h ⊢
    rw [h]
    rfl
  · simp only [h1, if_false, Bool.false_eq_true] at h ⊢
    by_cases h2 : strEndsWith (removeSpaces (strToUpper s)) "MB"
    · simp only [h2, if_true] at h ⊢
      rw [h]
    · simp only [h2, if_false, Bool.false_eq_true] at h ⊢
      by_cases h3 : strEndsWith (removeSpaces (strToUpper s)) "KB"
      · simp only [h3, if_true] at h ⊢
        rw [h]
        rfl
      · simp only [h3, if_false, Bool.false_eq_true] at h ⊢
        by_cases h4 : strEndsWith (removeSpaces (strToUpper s)) "B"
        · simp only [h4, if_true] at h ⊢
          rw [h]
          rfl
        · simp only [h4, if_false, Bool.false_eq_true] at h ⊢
          rw [h]

/-- C8: `parse_size_string` maps `"50MB"` to 50, `"1GB"` to 1024 and
`"500KB"` to `500/1024`, and raises a `ValueError` whenever the numeric
prefix left after stripping the unit is not a valid float literal. -/
theorem C8_parse_size_string_units :
    parse_size_string "50MB" = Except.ok 50 ∧
    parse_size_string "1GB" = Except.ok 1024 ∧
    parse_size_string "500KB" = Except.ok (500/1024) ∧
    ∀ s : String, pythonFloat (size_str_number s) = none →
      parse_size_string s = Except.error ("Invalid size format: " ++ s) := by
  refine ⟨?_, ?_, ?_, parse_size_string_error_of_bad_number⟩
  · have e2 : pythonFloat "50" = some 50 := by
      simp [pythonFloat, parseUnsigned, parseExp, takeDigits, digitsToNat, isPySpace]
    rw [parse_size_string]
    simp [show removeSpaces (strToUpper "50MB") = "50MB" from by decide,
      show strEndsWith "50MB" "GB" = false from by decide,
      show strEndsWith "50MB" "MB" = true from by decide,
      show strDropRight "50MB" 2 = "50" from by decide, e2]
  · have e2 : pythonFloat "1" = some 1 := by
      simp [pythonFloat, parseUnsigned, parseExp, takeDigits, digitsToNat, isPySpace]
    rw [parse_size_string]
    simp [show removeSpaces (strToUpper "1GB") = "1GB" from by decide,
      show strEndsWith "1GB" "GB" = true from by decide,
      show strDropRight "1GB" 2 = "1" from by decide, e2]
  · have e2 : pythonFloat "500" = some 500 := by
      simp [pythonFloat, parseUnsigned, parseExp, takeDigits, digitsToNat, isPySpace]
    rw [parse_size_string]
    simp [show removeSpaces (strToUpper "500KB") = "500KB" from by decide,
      show strEndsWith "500KB" "GB" = false from by decide,
      show strEndsWith "500KB" "MB" = false from by decide,
      show strEndsWith "500KB" "KB" = true from by decide,
      show strDropRight "500KB" 2 = "500" from by decide, e2]

/-- Witness for C8 on the malformed size string `"abcMB"`. -/
theorem C8_witness :
    parse_size_string "abcMB" = Except.error ("Invalid size format: " ++ "abcMB") :=
  C8_parse_size_string_units.2.2.2 "abcMB" (by decide)

/-! ### C7 -/

/-- The option flags whose presence the builder controls. -/
def reservedFlags : List String :=
  ["-y", "-crf", "-b:v", "-maxrate", "-map_metadata"]

lemma codec_params_flags (c : String) :
    "-crf" ∉ get_codec_specific_params c ∧
    "-b:v" ∉ get_codec_specific_params c ∧
    "-maxrate" ∉ get_codec_specific_params c ∧
    "-map_metadata" ∉ get_codec_specific_params c := by
  unfold get_codec_specific_params
  split
  · exact ⟨by simp, by simp, by simp, by simp⟩
  · split
    · exact ⟨by simp, by simp, by simp, by simp⟩
    · simp

/-- C7: for every input path, output path, settings dictionary that
carries at least one of the two mode keys, and preserve-metadata flag —
provided none of the free-form strings (paths, codec, preset, bitrate
string, printed CRF) collides with a reserved option flag — the built
command contains `-y`; contains `-crf` iff the settings carry no bitrate
key and the `-b:v`/`-maxrate` pair iff they do (never both modes);
contains the fixed audio block `-c:a aac -b:a 128k` as a contiguous
segment; and contains `-map_metadata` iff metadata preservation was
requested. -/
theorem C7_build_ffmpeg_command_flags
    (ffmpeg_path input_path output_path : String) (settings : VSettings)
    (preserve_metadata : Bool)
    (hkey : settings.bitrate.isSome ∨ settings.crf.isSome)
    (hclean : ∀ g ∈ reservedFlags,
      g ∉ [ffmpeg_path, input_path, output_path, settings.codec,
          settings.preset] ++ settings.bitrate.toList ++
        (settings.crf.map toString).toList) :
    ∃ cmd, build_ffmpeg_command ffmpeg_path input_path output_path settings
        preserve_metadata = some cmd ∧
      "-y" ∈ cmd ∧
      (("-crf" ∈ cmd) ↔ settings.bitrate = none) ∧
      (("-b:v" ∈ cmd) ↔ settings.bitrate.isSome) ∧
      (("-maxrate" ∈ cmd) ↔ settings.bitrate.isSome) ∧
      ¬(("-crf" ∈ cmd) ∧ ("-b:v" ∈ cmd)) ∧
      List.IsInfix ["-c:a", "aac", "-b:a", "128k"] cmd ∧
      (("-map_metadata" ∈ cmd) ↔ preserve_metadata = true) := by
  have hcr := hclean "-crf" (by decide)
  have hbv := hclean "-b:v" (by decide)
  have hmx := hclean "-maxrate" (by decide)
  have hmm := hclean "-map_metadata" (by decide)
  have hpar := codec_params_flags settings.codec
  rcases hb : settings.bitrate with _ | b
  · rcases hcf : settings.crf with _ | n
    · rw [hb, hcf] at hkey
      simp at hkey
    · simp [hb, hcf, not_or] at hcr hbv hmx hmm
      refine ⟨_, by rw [build_ffmpeg_command, hb, hcf], ?_, ?_, ?_, ?_, ?_, ?_, ?_⟩
      · cases preserve_metadata <;> simp
      · cases preserve_metadata <;> simp
      · cases preserve_metadata <;> simp [hb, hbv, hpar.2.1]
      · cases preserve_metadata <;> simp [hb, hmx, hpar.2.2.1]
      · cases preserve_metadata <;> simp [hbv, hpar.2.1]
      · cases preserve_metadata
        · exact ⟨[ffmpeg_path, "-i", input_path, "-c:v", settings.codec,
            "-preset", settings.preset, "-y"] ++ ["-crf", toString n] ++
              get_codec_specific_params settings.codec, [output_path],
            by simp [List.append_assoc]⟩
        · exact ⟨[ffmpeg_path, "-i", input_path, "-c:v", settings.codec,
            "-preset", settings.preset, "-y"] ++ ["-crf", toString n] ++
              get_codec_specific_params settings.codec,
            ["-map_metadata", "0", output_path],
            by simp [List.append_assoc]⟩
      · cases preserve_metadata <;> simp [hmm, hpar.2.2.2]
  · simp [hb, not_or] at hcr hbv hmx hmm
    refine ⟨_, by rw [build_ffmpeg_command, hb], ?_, ?_, ?_, ?_, ?_, ?_, ?_⟩
    · cases preserve_metadata <;> simp
    · cases preserve_metadata <;> simp [hb, hcr, hpar.1]
    · cases preserve_metadata <;> simp [hb]
    · cases preserve_metadata <;> simp [hb]
    · cases preserve_metadata <;> simp [hcr, hpar.1]
    · cases preserve_metadata
      · exact ⟨[ffmpeg_path, "-i", input_path, "-c:v", settings.codec,
          "-preset", settings.preset, "-y"] ++ ["-b:v", b, "-maxrate", b] ++
            get_codec_specific_params settings.codec, [output_path],
          by simp [List.append_assoc]⟩
      · exact ⟨[ffmpeg_path, "-i", input_path, "-c:v", settings.codec,
          "-preset", settings.preset, "-y"] ++ ["-b:v", b, "-maxrate", b] ++
            get_codec_specific_params settings.codec,
          ["-map_metadata", "0", output_path],
          by simp [List.append_assoc]⟩
    · cases preserve_metadata <;> simp [hmm, hpar.2.2.2]

/-- Witness for C7: CRF-mode settings for `libx264`, metadata preserved. -/
theorem C7_witness :
    ∃ cmd, build_ffmpeg_command "ffmpeg" "in.mp4" "out.mp4"
        ⟨"libx264", some 23, "medium", "medium", "H.264/AVC", none, none⟩
        true = some cmd ∧
      "-y" ∈ cmd ∧
      (("-crf" ∈ cmd) ↔
        (⟨"libx264", some 23, "medium", "medium", "H.264/AVC", none, none⟩
          : VSettings).bitrate = none) ∧
      (("-b:v" ∈ cmd) ↔
        (⟨"libx264", some 23, "medium", "medium", "H.264/AVC", none, none⟩
          : VSettings).bitrate.isSome) ∧
      (("-maxrate" ∈ cmd) ↔
        (⟨"libx264", some 23, "medium", "medium", "H.264/AVC", none, none⟩
          : VSettings).bitrate.isSome) ∧
      ¬(("-crf" ∈ cmd) ∧ ("-b:v" ∈ cmd)) ∧
      List.IsInfix ["-c:a", "aac", "-b:a", "128k"] cmd ∧
      (("-map_metadata" ∈ cmd) ↔ true = true) :=
  C7_build_ffmpeg_command_flags "ffmpeg" "in.mp4" "out.mp4"
    ⟨"libx264", some 23, "medium", "medium", "H.264/AVC", none, none⟩ true
    (Or.inr rfl) (by decide)

end VC
